import Mathlib

/-!
Shallow embedding of the iudex-go instrumentation setup (`src/main.go`).

The package wires an OpenTelemetry pipeline from an `InstrumentationConfig`
record and environment-variable defaults: it merges the config with defaults,
builds resource attributes and authentication headers, constructs a trace
provider and a logger provider, registers them globally, and returns a
shutdown closure.

Go `*string` fields are modelled as `Option String`, the process environment
(`os.LookupEnv`) as a function `String → Option String`, and Go `error`
values produced by `errors.Join` as `List String` with `[]` standing for
`nil` (since `errors.Join` discards `nil` arguments and returns `nil`
exactly when all arguments are `nil`).  The wrapped SDK constructors
(`resource.New`, `otlptracehttp.New`, `otlploghttp.New`) and the provider
shutdown methods can fail for external reasons; their outcomes are supplied
by a `World` record of oracles, while everything the repository itself
computes (defaulting, attributes, headers, endpoints, sequencing, rollback)
is embedded directly from the source.
-/

namespace IudexGo

/-- The process environment, modelling `os.LookupEnv`:
`none` means the variable is not set. -/
abbrev EnvMap := String → Option String

/-- A Go `error` built with `errors.Join`: the list of messages of its
non-nil leaves, `[]` standing for the `nil` error. -/
abbrev GoErr := List String

/-- Inject the result of a single fallible call into a `GoErr`. -/
def optErr : Option String → GoErr
  | none => []
  | some e => [e]

/-- `errors.Join` of two errors: `nil` arguments vanish and the result is
`nil` exactly when both are. -/
def errJoin (a b : GoErr) : GoErr := a ++ b

/-- `InstrumentationConfig` from `main.go`: all fields optional. -/
structure InstrumentationConfig where
  BaseURL      : Option String := none
  APIKey       : Option String := none
  PublicAPIKey : Option String := none
  Headers      : Option (List (String × String)) := none
  ServiceName  : Option String := none
  InstanceID   : Option String := none
  Env          : Option String := none
  GitCommit    : Option String := none
  GitHubURL    : Option String := none
deriving Repr, DecidableEq

/-- `getEnv` from `main.go`: the environment variable named by the key,
or the given default when the variable is not set. -/
def getEnv (env : EnvMap) (key : String) (defaultValue : Option String) : Option String :=
  match env key with
  | some value => some value
  | none => defaultValue

/-- `stringPtr` from `main.go`: a pointer to the given string. -/
def stringPtr (s : String) : Option String := some s

/-- `getDefaultConfig` from `main.go`: environment-derived default values,
with hard-coded fallbacks for `BaseURL`, `ServiceName` and `Env`. -/
def getDefaultConfig (env : EnvMap) : InstrumentationConfig :=
  let defaultBaseURL := getEnv env "BASE_URL" none
  let defaultBaseURL := match defaultBaseURL with
    | none => stringPtr "api.iudex.ai"
    | some v => some v
  let defaultAPIKey := getEnv env "API_KEY" none
  let defaultPublicAPIKey := getEnv env "PUBLIC_API_KEY" none
  let defaultServiceName := getEnv env "SERVICE_NAME" none
  let defaultServiceName := match defaultServiceName with
    | none => stringPtr "default-service"
    | some v => some v
  let defaultInstanceID := getEnv env "INSTANCE_ID" none
  let defaultEnv := getEnv env "ENVIRONMENT" none
  let defaultEnv := match defaultEnv with
    | none => stringPtr "development"
    | some v => some v
  let defaultGitCommit := getEnv env "GIT_COMMIT" none
  { BaseURL      := defaultBaseURL
    APIKey       := defaultAPIKey
    PublicAPIKey := defaultPublicAPIKey
    ServiceName  := defaultServiceName
    InstanceID   := defaultInstanceID
    Env          := defaultEnv
    GitCommit    := defaultGitCommit }

/-- The error message of `newHeaders` when both API-key fields are nil. -/
def headerKeyMissingMsg : String :=
  "PUBLIC_WRITE_ONLY_IUDEX_API_KEY environment variable is missing or empty"

/-- `newHeaders` from `main.go`: fails when both key fields are nil,
otherwise builds the header map, preferring the public write-only key. -/
def newHeaders (config : InstrumentationConfig) :
    Except String (List (String × String)) :=
  if config.APIKey = none ∧ config.PublicAPIKey = none then
    .error headerKeyMissingMsg
  else
    match config.PublicAPIKey with
    | some v => .ok [("x-write-only-api-key", v)]
    | none =>
      match config.APIKey with
      | some v => .ok [("x-api-key", v)]
      | none => .ok []

/-- The attribute list built by `newResource` from the non-nil config
fields, in source order. -/
def resourceAttributes (config : InstrumentationConfig) : List (String × String) :=
  let attributes : List (String × String) := []
  let attributes := attributes ++ (match config.ServiceName with
    | some v => [("service.name", v)]
    | none => [])
  let attributes := attributes ++ (match config.InstanceID with
    | some v => [("service.instance.id", v)]
    | none => [])
  let attributes := attributes ++ (match config.Env with
    | some v => [("env", v)]
    | none => [])
  let attributes := attributes ++ (match config.GitCommit with
    | some v => [("git.commit", v)]
    | none => [])
  let attributes := attributes ++ (match config.GitHubURL with
    | some v => [("github.url", v)]
    | none => [])
  attributes

/-- Oracles for the outcomes of the wrapped SDK calls that can fail for
reasons outside this repository: `resource.New`, the two exporter
constructors, and the two provider `Shutdown` methods.  `none` means the
call succeeds (returns a nil error). -/
structure World where
  resourceErr       : Option String := none
  traceExporterErr  : Option String := none
  logExporterErr    : Option String := none
  tracerShutdownErr : Option String := none
  loggerShutdownErr : Option String := none
deriving Repr, DecidableEq

/-- `newResource` from `main.go`: wraps a `resource.New` failure with the
`failed to create resource:` prefix, otherwise returns the resource,
observed here as its attribute list. -/
def newResource (w : World) (config : InstrumentationConfig) :
    Except String (List (String × String)) :=
  match w.resourceErr with
  | some e => .error ("failed to create resource: " ++ e)
  | none => .ok (resourceAttributes config)

/-- A constructed provider, observed by the endpoint and headers its
exporter was given and the resource it carries. -/
structure Provider where
  endpoint : String
  headers  : List (String × String)
  res      : List (String × String)
deriving Repr, DecidableEq

/-- `newTraceProvider` from `main.go`: endpoint from `BaseURL` (with the
`api.iudex.ai` fallback repeated locally), exporter failure from the
oracle. -/
def newTraceProvider (w : World) (config : InstrumentationConfig)
    (res : List (String × String)) (headers : List (String × String)) :
    Except String Provider :=
  let baseURL := match config.BaseURL with
    | some v => v
    | none => "api.iudex.ai"
  match w.traceExporterErr with
  | some e => .error e
  | none => .ok { endpoint := baseURL, headers := headers, res := res }

/-- `newLoggerProvider` from `main.go`: same shape as the trace provider,
with the log exporter oracle. -/
def newLoggerProvider (w : World) (config : InstrumentationConfig)
    (res : List (String × String)) (headers : List (String × String)) :
    Except String Provider :=
  let baseURL := match config.BaseURL with
    | some v => v
    | none => "api.iudex.ai"
  match w.logExporterErr with
  | some e => .error e
  | none => .ok { endpoint := baseURL, headers := headers, res := res }

/-- The `shutdown` closure of `setupOTelSDK`.  Each registered cleanup
function is characterised by the error it returns when invoked.  The
closure joins the errors of all registered cleanups, clears the list, and
returns the joined error; the third component counts how many cleanup
functions were invoked. -/
def runShutdown (shutdownFuncs : List (Option String)) :
    GoErr × List (Option String) × Nat :=
  (shutdownFuncs.foldl (fun acc fnErr => errJoin acc (optErr fnErr)) [],
   [],
   shutdownFuncs.length)

/-- The defaulting block of `setupOTelSDK` (the five `if config.X == nil`
statements): `ServiceName`, `InstanceID`, `Env`, `GitCommit` and `BaseURL`
are replaced by the corresponding `getDefaultConfig` values when nil; no
other field is touched. -/
def setDefaultValues (env : EnvMap) (config : InstrumentationConfig) :
    InstrumentationConfig :=
  let defaults := getDefaultConfig env
  { config with
    ServiceName := (match config.ServiceName with
      | none => defaults.ServiceName
      | some v => some v)
    InstanceID := (match config.InstanceID with
      | none => defaults.InstanceID
      | some v => some v)
    Env := (match config.Env with
      | none => defaults.Env
      | some v => some v)
    GitCommit := (match config.GitCommit with
      | none => defaults.GitCommit
      | some v => some v)
    BaseURL := (match config.BaseURL with
      | none => defaults.BaseURL
      | some v => some v) }

/-- Observable outcome of `setupOTelSDK`: the returned error, the error
handed to `handleErr` (none on success), the globally registered providers
(`otel.SetTracerProvider`, `global.SetLoggerProvider`), which provider
shutdowns ran during error handling, and the state of the captured
`shutdownFuncs` list behind the returned shutdown closure. -/
structure SetupResult where
  err               : GoErr
  failedWith        : Option String
  tracerProvider    : Option Provider
  loggerProvider    : Option Provider
  ranTracerShutdown : Bool
  ranLoggerShutdown : Bool
  shutdownFuncs     : List (Option String)
deriving Repr, DecidableEq

/-- `setupOTelSDK` from `main.go`: default the config, then build resource,
headers, trace provider and logger provider in order; on any failure call
`handleErr` (which runs the shutdown closure over the cleanups registered
so far and joins the errors); on success register both providers and leave
their shutdowns in the closure.  The unconditional propagator registration
has no observable state here and is not recorded. -/
def setupOTelSDK (w : World) (env : EnvMap) (config0 : InstrumentationConfig) :
    SetupResult :=
  let config := setDefaultValues env config0
  match newResource w config with
  | .error e =>
    let s := runShutdown []
    { err := errJoin [e] s.1, failedWith := some e
      tracerProvider := none, loggerProvider := none
      ranTracerShutdown := false, ranLoggerShutdown := false
      shutdownFuncs := s.2.1 }
  | .ok res =>
    match newHeaders config with
    | .error e =>
      let s := runShutdown []
      { err := errJoin [e] s.1, failedWith := some e
        tracerProvider := none, loggerProvider := none
        ranTracerShutdown := false, ranLoggerShutdown := false
        shutdownFuncs := s.2.1 }
    | .ok headers =>
      match newTraceProvider w config res headers with
      | .error e =>
        let s := runShutdown []
        { err := errJoin [e] s.1, failedWith := some e
          tracerProvider := none, loggerProvider := none
          ranTracerShutdown := false, ranLoggerShutdown := false
          shutdownFuncs := s.2.1 }
      | .ok tracerProvider =>
        match newLoggerProvider w config res headers with
        | .error e =>
          let s := runShutdown [w.tracerShutdownErr]
          { err := errJoin [e] s.1, failedWith := some e
            tracerProvider := some tracerProvider, loggerProvider := none
            ranTracerShutdown := true, ranLoggerShutdown := false
            shutdownFuncs := s.2.1 }
        | .ok loggerProvider =>
          { err := [], failedWith := none
            tracerProvider := some tracerProvider
            loggerProvider := some loggerProvider
            ranTracerShutdown := false, ranLoggerShutdown := false
            shutdownFuncs := [w.tracerShutdownErr, w.loggerShutdownErr] }

/-- The all-defaults configuration (the Go zero value of the struct). -/
def cfgNone : InstrumentationConfig := {}

/-- A configuration carrying only a public write-only key. -/
def cfgPub : InstrumentationConfig := { PublicAPIKey := some "pk" }

/-- A configuration carrying only a private key. -/
def cfgPriv : InstrumentationConfig := { APIKey := some "ak" }

/-- A configuration whose public key is present but empty. -/
def cfgEmptyPub : InstrumentationConfig := { PublicAPIKey := some "" }

/-- The world in which every wrapped SDK call succeeds. -/
def wOk : World := {}

/-- A world in which the log exporter constructor fails and the tracer
provider shutdown also fails. -/
def wLogFail : World :=
  { logExporterErr := some "log exporter boom"
    tracerShutdownErr := some "tracer shutdown boom" }

/-- The empty environment: no variable set. -/
def envNone : EnvMap := fun _ => none

/-- An environment with every variable set to the same value. -/
def envAll : EnvMap := fun _ => some "ev"

/-- An environment with only `API_KEY` set. -/
def envApiKeyOnly : EnvMap := fun k => if k = "API_KEY" then some "secret" else none

/-- An environment with only `PUBLIC_API_KEY` set, to the empty string. -/
def envEmptyPub : EnvMap := fun k => if k = "PUBLIC_API_KEY" then some "" else none

/-- An environment that differs from `envNone` only on a variable the
code never reads. -/
def envHomeOnly : EnvMap := fun k => if k = "HOME" then some "/root" else none

/-- The seven environment variables read by `getDefaultConfig`. -/
def envVarsRead : List String :=
  ["BASE_URL", "API_KEY", "PUBLIC_API_KEY", "SERVICE_NAME",
   "INSTANCE_ID", "ENVIRONMENT", "GIT_COMMIT"]

/-- Claim C1: if, after defaulting, both API-key fields are absent
(`config.APIKey` and `config.PublicAPIKey` are nil and neither the
`API_KEY` nor the `PUBLIC_API_KEY` environment variable is set), then
`setupOTelSDK` returns a non-nil error and no tracer provider or logger
provider has been registered. -/
theorem setup_missing_keys_fails (w : World) (env : EnvMap)
    (config : InstrumentationConfig)
    (hA : config.APIKey = none) (hP : config.PublicAPIKey = none)
    (_hEA : env "API_KEY" = none) (_hEP : env "PUBLIC_API_KEY" = none) :
    (setupOTelSDK w env config).err ≠ [] ∧
    (setupOTelSDK w env config).tracerProvider = none ∧
    (setupOTelSDK w env config).loggerProvider = none := by
  have hA' : (setDefaultValues env config).APIKey = none := hA
  have hP' : (setDefaultValues env config).PublicAPIKey = none := hP
  cases hres : w.resourceErr with
  | some e =>
    simp [setupOTelSDK, newResource, hres, runShutdown, errJoin]
  | none =>
    simp [setupOTelSDK, newResource, hres, newHeaders, hA', hP',
      runShutdown, errJoin]

/-- Witness for C1 at the concrete all-nil configuration and empty
environment. -/
theorem setup_missing_keys_fails_witness :
    cfgNone.APIKey = none ∧ cfgNone.PublicAPIKey = none ∧
    envNone "API_KEY" = none ∧ envNone "PUBLIC_API_KEY" = none ∧
    ((setupOTelSDK wOk envNone cfgNone).err ≠ [] ∧
     (setupOTelSDK wOk envNone cfgNone).tracerProvider = none ∧
     (setupOTelSDK wOk envNone cfgNone).loggerProvider = none) :=
  ⟨rfl, rfl, rfl, rfl,
   setup_missing_keys_fails wOk envNone cfgNone rfl rfl rfl rfl⟩

/-- Claim C4: header-name selection.  When `PublicAPIKey` is non-nil the
headers map `x-write-only-api-key` to its value; when `PublicAPIKey` is
nil and `APIKey` is non-nil they map `x-api-key` to its value. -/
theorem newHeaders_key_selection (config : InstrumentationConfig) :
    (∀ v, config.PublicAPIKey = some v →
      newHeaders config = .ok [("x-write-only-api-key", v)]) ∧
    (∀ v, config.PublicAPIKey = none → config.APIKey = some v →
      newHeaders config = .ok [("x-api-key", v)]) := by
  constructor
  · intro v hv
    simp [newHeaders, hv]
  · intro v hp ha
    simp [newHeaders, hp, ha]

/-- Witness for C4 at a public-key-only and a private-key-only
configuration. -/
theorem newHeaders_key_selection_witness :
    newHeaders cfgPub = .ok [("x-write-only-api-key", "pk")] ∧
    newHeaders cfgPriv = .ok [("x-api-key", "ak")] :=
  ⟨(newHeaders_key_selection cfgPub).1 "pk" rfl,
   (newHeaders_key_selection cfgPriv).2 "ak" rfl rfl⟩

/-- Claim C5, counterexample: at a configuration with a key present, the
header map built by `newHeaders` has one entry, not two. -/
theorem newHeaders_not_two_entries :
    (cfgPub.APIKey ≠ none ∨ cfgPub.PublicAPIKey ≠ none) ∧
    Except.map List.length (newHeaders cfgPub) = Except.ok 1 ∧
    Except.map List.length (newHeaders cfgPub) ≠ Except.ok 2 := by
  refine ⟨Or.inr (by decide), by rfl, by simp [cfgPub, newHeaders, Except.map]⟩

/-- Claim C5, amended: for every configuration with at least one API-key
field present, the header map built by `newHeaders` contains exactly one
entry. -/
theorem newHeaders_one_entry (config : InstrumentationConfig)
    (h : config.APIKey ≠ none ∨ config.PublicAPIKey ≠ none) :
    Except.map List.length (newHeaders config) = Except.ok 1 := by
  cases hp : config.PublicAPIKey with
  | some v => simp [newHeaders, hp, Except.map]
  | none =>
    cases ha : config.APIKey with
    | some v => simp [newHeaders, hp, ha, Except.map]
    | none => cases h <;> simp_all

/-- Witness for the amended C5 at the public-key-only configuration. -/
theorem newHeaders_one_entry_witness :
    (cfgPub.APIKey ≠ none ∨ cfgPub.PublicAPIKey ≠ none) ∧
    Except.map List.length (newHeaders cfgPub) = Except.ok 1 :=
  ⟨Or.inr (by decide), newHeaders_one_entry cfgPub (Or.inr (by decide))⟩

/-- Claim C7: the shutdown closure clears its list of cleanup functions
after running, so a second invocation calls no cleanup function and
returns the nil error. -/
theorem shutdown_second_invocation_nil (w : World) (env : EnvMap)
    (config : InstrumentationConfig) :
    (runShutdown (setupOTelSDK w env config).shutdownFuncs).2.1 = [] ∧
    (runShutdown (runShutdown (setupOTelSDK w env config).shutdownFuncs).2.1).2.2 = 0 ∧
    (runShutdown (runShutdown (setupOTelSDK w env config).shutdownFuncs).2.1).1 = [] :=
  ⟨rfl, rfl, rfl⟩

/-- Claim C9: the `Headers` field of the configuration is never used:
two configurations differing only in `Headers` give the same setup
outcome, including the registered providers (hence the same outgoing
header map and resource) and the same error. -/
theorem headers_field_unused (w : World) (env : EnvMap)
    (config : InstrumentationConfig)
    (h1 h2 : Option (List (String × String))) :
    setupOTelSDK w env { config with Headers := h1 } =
      setupOTelSDK w env { config with Headers := h2 } := rfl

/-- Claim C8: `getDefaultConfig` reads only the seven environment
variables in `envVarsRead`: two environments that agree on them yield
equal configurations. -/
theorem getDefaultConfig_depends_only_on_seven (env1 env2 : EnvMap)
    (h : ∀ k ∈ envVarsRead, env1 k = env2 k) :
    getDefaultConfig env1 = getDefaultConfig env2 := by
  have h1 := h "BASE_URL" (by simp [envVarsRead])
  have h2 := h "API_KEY" (by simp [envVarsRead])
  have h3 := h "PUBLIC_API_KEY" (by simp [envVarsRead])
  have h4 := h "SERVICE_NAME" (by simp [envVarsRead])
  have h5 := h "INSTANCE_ID" (by simp [envVarsRead])
  have h6 := h "ENVIRONMENT" (by simp [envVarsRead])
  have h7 := h "GIT_COMMIT" (by simp [envVarsRead])
  simp [getDefaultConfig, getEnv, h1, h2, h3, h4, h5, h6, h7]

/-- Witness for C8: the empty environment and one that sets only `HOME`
(a variable the code never reads) agree on the seven variables and give
equal default configurations. -/
theorem getDefaultConfig_depends_only_on_seven_witness :
    (∀ k ∈ envVarsRead, envNone k = envHomeOnly k) ∧
    getDefaultConfig envNone = getDefaultConfig envHomeOnly :=
  ⟨by decide,
   getDefaultConfig_depends_only_on_seven envNone envHomeOnly (by decide)⟩

/-- Claim C6, counterexample: in an environment where every variable is
set, the defaulting block of `setupOTelSDK` still leaves the nil fields
`GitHubURL`, `Headers`, `APIKey` and `PublicAPIKey` at nil, so not every
absent field falls back to an environment-variable lookup. -/
theorem setup_defaulting_counterexample :
    envAll "GITHUB_URL" = some "ev" ∧
    cfgNone.GitHubURL = none ∧
    (setDefaultValues envAll cfgNone).GitHubURL = none ∧
    (setDefaultValues envAll cfgNone).Headers = none ∧
    (setDefaultValues envAll cfgNone).APIKey = none ∧
    (setDefaultValues envAll cfgNone).PublicAPIKey = none := by
  decide

/-- Claim C6, amended: exactly the five fields `ServiceName`,
`InstanceID`, `Env`, `GitCommit` and `BaseURL` fall back to
environment-variable lookups during setup (with hard-coded last resorts
for `ServiceName`, `Env` and `BaseURL`); `APIKey`, `PublicAPIKey`,
`GitHubURL` and `Headers` pass through the defaulting block unchanged. -/
theorem setup_defaulting_scope (env : EnvMap) (config : InstrumentationConfig) :
    ((setDefaultValues env config).ServiceName =
      (match config.ServiceName with
       | some v => some v
       | none => match env "SERVICE_NAME" with
         | some v => some v
         | none => some "default-service")) ∧
    ((setDefaultValues env config).InstanceID =
      (match config.InstanceID with
       | some v => some v
       | none => env "INSTANCE_ID")) ∧
    ((setDefaultValues env config).Env =
      (match config.Env with
       | some v => some v
       | none => match env "ENVIRONMENT" with
         | some v => some v
         | none => some "development")) ∧
    ((setDefaultValues env config).GitCommit =
      (match config.GitCommit with
       | some v => some v
       | none => env "GIT_COMMIT")) ∧
    ((setDefaultValues env config).BaseURL =
      (match config.BaseURL with
       | some v => some v
       | none => match env "BASE_URL" with
         | some v => some v
         | none => some "api.iudex.ai")) ∧
    (setDefaultValues env config).APIKey = config.APIKey ∧
    (setDefaultValues env config).PublicAPIKey = config.PublicAPIKey ∧
    (setDefaultValues env config).GitHubURL = config.GitHubURL ∧
    (setDefaultValues env config).Headers = config.Headers := by
  refine ⟨?_, ?_, ?_, ?_, ?_, rfl, rfl, rfl, rfl⟩
  · cases hc : config.ServiceName <;>
      cases he : env "SERVICE_NAME" <;>
        simp [setDefaultValues, getDefaultConfig, getEnv, stringPtr, hc, he]
  · cases hc : config.InstanceID <;>
      cases he : env "INSTANCE_ID" <;>
        simp [setDefaultValues, getDefaultConfig, getEnv, stringPtr, hc, he]
  · cases hc : config.Env <;>
      cases he : env "ENVIRONMENT" <;>
        simp [setDefaultValues, getDefaultConfig, getEnv, stringPtr, hc, he]
  · cases hc : config.GitCommit <;>
      cases he : env "GIT_COMMIT" <;>
        simp [setDefaultValues, getDefaultConfig, getEnv, stringPtr, hc, he]
  · cases hc : config.BaseURL <;>
      cases he : env "BASE_URL" <;>
        simp [setDefaultValues, getDefaultConfig, getEnv, stringPtr, hc, he]

/-- Claim C2, divergence at a concrete input: with an all-nil
configuration and an environment that sets only `API_KEY`, the
environment value is read into the defaults but never merged into the
configuration, so setup fails with the missing-key error instead of using
the environment-supplied key. -/
theorem setup_env_apikey_not_merged :
    getEnv envApiKeyOnly "API_KEY" none = some "secret" ∧
    (getDefaultConfig envApiKeyOnly).APIKey = some "secret" ∧
    (setDefaultValues envApiKeyOnly cfgNone).APIKey = none ∧
    (setupOTelSDK wOk envApiKeyOnly cfgNone).err = [headerKeyMissingMsg] ∧
    (setupOTelSDK wOk envApiKeyOnly cfgNone).tracerProvider = none ∧
    (setupOTelSDK wOk envApiKeyOnly cfgNone).loggerProvider = none := by
  decide

/-- Claim C10, counterexample: setting `PUBLIC_API_KEY` to the empty
string makes `getEnv` return a present (non-nil) empty value, but setup
with an otherwise empty configuration still fails, because the
environment-derived API keys are never merged into the configuration that
`newHeaders` checks. -/
theorem env_empty_key_setup_still_fails :
    envEmptyPub "PUBLIC_API_KEY" = some "" ∧
    getEnv envEmptyPub "PUBLIC_API_KEY" none = some "" ∧
    (setupOTelSDK wOk envEmptyPub cfgNone).err = [headerKeyMissingMsg] ∧
    (setupOTelSDK wOk envEmptyPub cfgNone).tracerProvider = none := by
  decide

/-- Claim C10, amended: an environment variable set to the empty string
counts as present (`getEnv` returns a non-nil pointer to the empty
string, and `getDefaultConfig` carries it), and a configuration whose
`PublicAPIKey` field is the empty string satisfies the key-presence check
of `newHeaders`, so setup proceeds with an empty-valued authentication
header rather than failing; but the environment variable alone does not
reach `newHeaders`, since the API-key defaults are never merged. -/
theorem empty_string_key_counts_as_present (env : EnvMap)
    (config : InstrumentationConfig)
    (henv : env "PUBLIC_API_KEY" = some "")
    (hcfg : config.PublicAPIKey = some "") :
    getEnv env "PUBLIC_API_KEY" none = some "" ∧
    (getDefaultConfig env).PublicAPIKey = some "" ∧
    newHeaders config = .ok [("x-write-only-api-key", "")] ∧
    (setupOTelSDK wOk env config).err = [] := by
  have hm : (setDefaultValues env config).PublicAPIKey = some "" := hcfg
  refine ⟨?_, ?_, ?_, ?_⟩
  · simp [getEnv, henv]
  · simp [getDefaultConfig, getEnv, henv]
  · simp [newHeaders, hcfg]
  · simp [setupOTelSDK, wOk, newResource, newHeaders, hm,
      newTraceProvider, newLoggerProvider, runShutdown]

/-- Witness for the amended C10 at the concrete empty-string environment
and configuration. -/
theorem empty_string_key_counts_as_present_witness :
    (envEmptyPub "PUBLIC_API_KEY" = some "" ∧
     cfgEmptyPub.PublicAPIKey = some "") ∧
    (getEnv envEmptyPub "PUBLIC_API_KEY" none = some "" ∧
     (getDefaultConfig envEmptyPub).PublicAPIKey = some "" ∧
     newHeaders cfgEmptyPub = .ok [("x-write-only-api-key", "")] ∧
     (setupOTelSDK wOk envEmptyPub cfgEmptyPub).err = []) :=
  ⟨⟨by decide, rfl⟩,
   empty_string_key_counts_as_present envEmptyPub cfgEmptyPub (by decide) rfl⟩

/-- Claim C3: if any constructor fails, every provider started before the
failure is shut down before the error is surfaced, the logger provider
(last in the sequence) is never started before a failure, and the
returned error is the join of the failing constructor error with the
errors of those shutdowns; the returned error is non-nil. -/
theorem setup_failure_rollback (w : World) (env : EnvMap)
    (config : InstrumentationConfig) (e : String)
    (hfail : (setupOTelSDK w env config).failedWith = some e) :
    (setupOTelSDK w env config).err =
      errJoin [e]
        (if (setupOTelSDK w env config).tracerProvider.isSome then
          optErr w.tracerShutdownErr
        else []) ∧
    (setupOTelSDK w env config).ranTracerShutdown =
      (setupOTelSDK w env config).tracerProvider.isSome ∧
    (setupOTelSDK w env config).loggerProvider = none ∧
    (setupOTelSDK w env config).ranLoggerShutdown = false ∧
    (setupOTelSDK w env config).err ≠ [] := by
  cases hr : w.resourceErr with
  | some e0 =>
    simp [setupOTelSDK, newResource, hr, runShutdown, errJoin, optErr]
      at hfail ⊢
    simp [← hfail]
  | none =>
    cases hnh : newHeaders (setDefaultValues env config) with
    | error e1 =>
      simp [setupOTelSDK, newResource, hr, hnh, runShutdown, errJoin, optErr]
        at hfail ⊢
      simp [← hfail]
    | ok hs =>
      cases ht : w.traceExporterErr with
      | some e2 =>
        simp [setupOTelSDK, newResource, hr, hnh, newTraceProvider, ht,
          runShutdown, errJoin, optErr] at hfail ⊢
        simp [← hfail]
      | none =>
        cases hl : w.logExporterErr with
        | some e3 =>
          simp [setupOTelSDK, newResource, hr, hnh, newTraceProvider, ht,
            newLoggerProvider, hl, runShutdown, errJoin, optErr] at hfail ⊢
          simp [← hfail]
        | none =>
          simp [setupOTelSDK, newResource, hr, hnh, newTraceProvider, ht,
            newLoggerProvider, hl] at hfail

/-- Witness for C3 at a world where the log exporter constructor fails
after the tracer provider was started, and the tracer shutdown itself
fails: the returned error joins both messages. -/
theorem setup_failure_rollback_witness :
    (setupOTelSDK wLogFail envNone cfgPub).failedWith =
      some "log exporter boom" ∧
    ((setupOTelSDK wLogFail envNone cfgPub).err =
      errJoin ["log exporter boom"]
        (if (setupOTelSDK wLogFail envNone cfgPub).tracerProvider.isSome then
          optErr wLogFail.tracerShutdownErr
        else []) ∧
    (setupOTelSDK wLogFail envNone cfgPub).ranTracerShutdown =
      (setupOTelSDK wLogFail envNone cfgPub).tracerProvider.isSome ∧
    (setupOTelSDK wLogFail envNone cfgPub).loggerProvider = none ∧
    (setupOTelSDK wLogFail envNone cfgPub).ranLoggerShutdown = false ∧
    (setupOTelSDK wLogFail envNone cfgPub).err ≠ []) :=
  ⟨rfl,
   setup_failure_rollback wLogFail envNone cfgPub "log exporter boom" rfl⟩

end IudexGo
